import Mathlib

set_option maxHeartbeats 1000000

/-!
Verification model of the SFTP server in `src/src/sshfs_mount/sftp_server.cpp`
(multipass).  Paths are byte strings, modelled as `List Char`.  Filesystem and
platform calls are modelled by an outcome oracle (`FsOracle`); each handler
returns its wire reply together with the ordered trace of filesystem/platform
syscalls it performed (`List Syscall`).  Handle tables are association lists
keyed by an opaque `Nat` (the source uses raw addresses as keys).
-/

/-- Modelled from the spec: the sentinel `NO_ID_INFO` ("identity unavailable").
The defining header (`multipass/cli/client_platform.h`) is not among the
surveyed sources; the concrete value is immaterial to the claims. -/
def no_id_info_available : Int := -2

/-- Modelled from the spec: the sentinel `DEFAULT_ID` ("advertise the
configured default id").  The defining header is not among the surveyed
sources; the concrete value is immaterial to the claims. -/
def default_id : Int := -1

/-- `validate_path` from sftp_server.cpp: false when the configured source
path is empty, otherwise a raw byte-prefix comparison of `current_path`
against `source_path` starting at position zero
(`current_path.compare(0, source_path.length(), source_path) == 0`). -/
def validate_path (source_path current_path : List Char) : Bool :=
  if source_path.isEmpty then false
  else source_path.isPrefixOf current_path

/-- `mapped_id_for` from sftp_server.cpp: forward id mapping
(host id to remote id) with `find_if` over the ordered entry list. -/
def mapped_id_for (id_maps : List (Int × Int)) (id idIfNotFound : Int) : Int :=
  if id = no_id_info_available then idIfNotFound
  else
    match id_maps.find? (fun p => id == p.fst) with
    | some p => if p.snd = default_id then idIfNotFound else p.snd
    | none => id

/-- `reverse_id_for` from sftp_server.cpp: reverse id mapping
(remote id to host id) with `find_if` over the ordered entry list. -/
def reverse_id_for (id_maps : List (Int × Int)) (id revIdIfNotFound : Int) : Int :=
  match id_maps.find? (fun p => id == p.snd) with
  | some p => p.fst
  | none => revIdIfNotFound

/-- Spec-side restatement of the forward scan: walk the entries in order and
use the first whose first component equals the input. -/
def forward_scan_spec : List (Int × Int) → Int → Int → Int
  | [], id, _ => id
  | p :: rest, id, fallback =>
      if id = p.fst then (if p.snd = default_id then fallback else p.snd)
      else forward_scan_spec rest id fallback

/-- Spec-side restatement of the forward map, including the sentinel case. -/
def forward_map_spec (id_maps : List (Int × Int)) (id fallback : Int) : Int :=
  if id = no_id_info_available then fallback
  else forward_scan_spec id_maps id fallback

/-- Spec-side restatement of the reverse scan: walk the entries in order and
return the first component of the first entry whose second component equals
the input; the fallback on no match. -/
def reverse_scan_spec : List (Int × Int) → Int → Int → Int
  | [], _, fallback => fallback
  | p :: rest, id, fallback =>
      if id = p.snd then p.fst else reverse_scan_spec rest id fallback

/-- SFTP open flags (wire protocol constants, from the SFTP v3 draft as used
by libssh). -/
def SSH_FXF_READ : Nat := 1

def SSH_FXF_WRITE : Nat := 2

def SSH_FXF_APPEND : Nat := 4

def SSH_FXF_TRUNC : Nat := 16

/-- SFTP attribute flag bits (wire protocol constants). -/
def SSH_FILEXFER_ATTR_SIZE : Nat := 1

def SSH_FILEXFER_ATTR_UIDGID : Nat := 2

def SSH_FILEXFER_ATTR_PERMISSIONS : Nat := 4

def SSH_FILEXFER_ATTR_ACMODTIME : Nat := 8

/-- `max_packet_size` in `handle_read`. -/
def max_packet_size : Nat := 65536

/-- `max_num_entries_per_packet` in `handle_readdir`. -/
def max_num_entries_per_packet : Nat := 50

/-- Wire status codes used by the handlers. -/
inductive SftpStatus
  | ok
  | eof
  | noSuchFile
  | permissionDenied
  | failure
  | badMessage
  | opUnsupported
deriving DecidableEq, Repr

/-- The access mode computed by `handle_open` (net effect of the
`QIODevice::OpenMode` bits the code ORs together). -/
structure OpenMode where
  read : Bool
  write : Bool
  append : Bool
  trunc : Bool
deriving DecidableEq, Repr

/-- One filesystem / platform call performed by a handler, with the path
arguments the source passes to it.  `statFamily` stands for the
`QFileInfo` / `QFile::exists` / `QDir::exists` / `isReadable` /
`symLinkTarget` metadata queries on a request-supplied path; `statParent` for
the `QFileInfo` on the parent directory used for the ownership fallback in
MKDIR/OPEN; `statLinkSource` for `QFileInfo(old_name).isDir()` in SYMLINK;
`statLinkTarget` for the re-stat of a symlink's stored target in STAT;
`symlinkAttr` for `mp::platform::symlink_attr_from`; `entryInfoList` for the
directory snapshot in OPENDIR. -/
inductive Syscall
  | sysOpen (path : List Char) (mode : OpenMode)
  | sysMkdir (path : List Char)
  | setPermissions (path : List Char) (perms : Nat)
  | chown (path : List Char) (uid gid : Int)
  | sysRmdir (path : List Char)
  | sysRemove (path : List Char)
  | sysRename (src dst : List Char)
  | sysSymlink (oldName newName : List Char) (isDir : Bool)
  | sysLink (oldName newName : List Char)
  | sysUtime (path : List Char) (atime mtime : Nat)
  | resize (path : List Char) (size : Nat)
  | statFamily (path : List Char)
  | statParent (path : List Char)
  | statLinkSource (path : List Char)
  | statLinkTarget (path : List Char)
  | symlinkAttr (path : List Char)
  | entryInfoList (path : List Char)
deriving DecidableEq, Repr

/-- The reply a handler sends on the wire.  Status replies carry the optional
human-readable text the source passes to `sftp_reply_status`.  Attribute and
data payloads are not inspected by any claim, so `attrReply` and `dataReply`
record only their occurrence (and byte count). -/
inductive Reply
  | status (s : SftpStatus) (text : Option (List Char))
  | handleReply
  | nameReply (path : List Char)
  | namesReply (entries : List (List Char))
  | attrReply
  | dataReply (bytes : Nat)
deriving DecidableEq, Repr

/-- `reply_ok`. -/
def ok_reply : Reply := Reply.status SftpStatus.ok none

/-- `reply_failure`. -/
def failure_reply : Reply := Reply.status SftpStatus.failure none

/-- `reply_perm_denied`. -/
def perm_denied_reply : Reply :=
  Reply.status SftpStatus.permissionDenied (some ("permission denied".toList))

/-- `reply_bad_handle`: BAD_MESSAGE with `"<op>: invalid handle"`. -/
def bad_handle_reply (op : List Char) : Reply :=
  Reply.status SftpStatus.badMessage (some (op ++ (": invalid handle".toList)))

/-- `reply_unsupported`. -/
def unsupported_reply : Reply :=
  Reply.status SftpStatus.opUnsupported (some ("Unsupported message".toList))

/-- The wire-visible attribute record of a client message (`msg->attr`). -/
structure SftpAttrs where
  size : Nat
  uid : Int
  gid : Int
  permissions : Nat
  atime : Nat
  mtime : Nat
  flags : Nat
deriving DecidableEq, Repr

/-- The parts of an `sftp_client_message` the handlers read: primary
filename, secondary data string (rename/symlink target, hardlink new name),
open flags, attribute record, and the extended submessage name. -/
structure SftpMessage where
  filename : List Char
  msgData : List Char
  flags : Nat
  attr : SftpAttrs
  submessage : Option (List Char)
deriving DecidableEq, Repr

/-- Server configuration fixed at construction. -/
structure SftpConfig where
  source_path : List Char
  uid_mappings : List (Int × Int)
  gid_mappings : List (Int × Int)
  default_uid : Int
  default_gid : Int

/-- Outcome oracle for filesystem and platform calls: for each call the
outcome the host filesystem would produce.  `chownRet` and `utimeRet` are the
integer returns the source compares against 0.  The chunked write loop of
`handle_write` is abstracted to its overall outcome (`writeAllOk`);
`allocOk` models `sftp_handle_alloc` success. -/
structure FsOracle where
  fileExists : List Char → Bool
  dirExists : List Char → Bool
  isSymLink : List Char → Bool
  isDir : List Char → Bool
  isReadable : List Char → Bool
  parentPath : List Char → List Char
  ownerId : List Char → Int
  groupId : List Char → Int
  symLinkTarget : List Char → List Char
  entryList : List Char → List (List Char)
  absFilePath : List Char → List Char
  openOk : List Char → OpenMode → Bool
  mkdirOk : List Char → Bool
  setPermissionsOk : List Char → Bool
  chownRet : List Char → Int → Int → Int
  rmdirOk : List Char → Bool
  removeOk : List Char → Bool
  renameOk : List Char → List Char → Bool
  symlinkOk : List Char → List Char → Bool
  linkOk : List Char → List Char → Bool
  utimeRet : List Char → Nat → Nat → Int
  resizeOk : List Char → Bool
  seekOk : List Char → Nat → Bool
  readRet : List Char → Nat → Nat → Int
  writeAllOk : List Char → Bool
  errorString : List Char → List Char
  allocOk : Bool

/-- The two open-handle tables: files hold their path, directories hold the
remaining snapshot entries. -/
structure ServerState where
  open_file_handles : List (Nat × List Char)
  open_dir_handles : List (Nat × List (List Char))
deriving Repr

/-- The access mode `handle_open` builds from the request flags: READ and
WRITE map to their bits; append is enabled by the APPEND bit, and
additionally by the sshfs workaround when the flag word equals exactly
`SSH_FXF_WRITE`; TRUNC maps to truncate. -/
def open_mode_from_flags (flags : Nat) : OpenMode :=
  let m0 : OpenMode := ⟨false, false, false, false⟩
  let m1 := if flags.land SSH_FXF_READ != 0 then { m0 with read := true } else m0
  let m2 :=
    if flags.land SSH_FXF_WRITE != 0 then
      (if flags == SSH_FXF_WRITE then { m1 with write := true, append := true }
       else { m1 with write := true })
    else m1
  let m3 := if flags.land SSH_FXF_APPEND != 0 then { m2 with append := true } else m2
  if flags.land SSH_FXF_TRUNC != 0 then { m3 with trunc := true } else m3

/-- `handle_realpath`: validate, then reply with the absolute form of the
path (`QFileInfo::absoluteFilePath` is a lexical computation; no filesystem
call). -/
def handle_realpath (cfg : SftpConfig) (o : FsOracle) (msg : SftpMessage) :
    Reply × List Syscall :=
  if validate_path cfg.source_path msg.filename then
    (Reply.nameReply (o.absFilePath msg.filename), [])
  else (perm_denied_reply, [])

/-- `handle_opendir`: validate; require the directory to exist and be
readable; snapshot the complete entry list; allocate a handle.  The third
component is the snapshot installed into the open-directory table on
success. -/
def handle_opendir (cfg : SftpConfig) (o : FsOracle) (msg : SftpMessage) :
    Reply × List Syscall × Option (List (List Char)) :=
  if validate_path cfg.source_path msg.filename then
    if o.dirExists msg.filename then
      if o.isReadable msg.filename then
        if o.allocOk then
          (Reply.handleReply,
           [Syscall.statFamily msg.filename, Syscall.statFamily msg.filename,
            Syscall.entryInfoList msg.filename],
           some (o.entryList msg.filename))
        else
          (failure_reply,
           [Syscall.statFamily msg.filename, Syscall.statFamily msg.filename,
            Syscall.entryInfoList msg.filename],
           none)
      else
        (perm_denied_reply,
         [Syscall.statFamily msg.filename, Syscall.statFamily msg.filename], none)
    else
      (Reply.status SftpStatus.noSuchFile (some ("no such directory".toList)),
       [Syscall.statFamily msg.filename], none)
  else (perm_denied_reply, [], none)

/-- `handle_mkdir`: validate; mkdir; apply the request's permission bits;
stat the parent directory and chown to the reverse-mapped ids with the
parent's owner/group as fallback. -/
def handle_mkdir (cfg : SftpConfig) (o : FsOracle) (msg : SftpMessage) :
    Reply × List Syscall :=
  if validate_path cfg.source_path msg.filename then
    if o.mkdirOk msg.filename then
      if o.setPermissionsOk msg.filename then
        let parent := o.parentPath msg.filename
        let rev_uid := reverse_id_for cfg.uid_mappings msg.attr.uid (o.ownerId parent)
        let rev_gid := reverse_id_for cfg.gid_mappings msg.attr.gid (o.groupId parent)
        let tr := [Syscall.sysMkdir msg.filename,
                   Syscall.setPermissions msg.filename msg.attr.permissions,
                   Syscall.statParent parent,
                   Syscall.chown msg.filename rev_uid rev_gid]
        if o.chownRet msg.filename rev_uid rev_gid < 0 then (failure_reply, tr)
        else (ok_reply, tr)
      else
        (failure_reply,
         [Syscall.sysMkdir msg.filename,
          Syscall.setPermissions msg.filename msg.attr.permissions])
    else (failure_reply, [Syscall.sysMkdir msg.filename])
  else (perm_denied_reply, [])

/-- `handle_rmdir`: validate; rmdir. -/
def handle_rmdir (cfg : SftpConfig) (o : FsOracle) (msg : SftpMessage) :
    Reply × List Syscall :=
  if validate_path cfg.source_path msg.filename then
    if o.rmdirOk msg.filename then (ok_reply, [Syscall.sysRmdir msg.filename])
    else (failure_reply, [Syscall.sysRmdir msg.filename])
  else (perm_denied_reply, [])

/-- `handle_stat` (STAT when `follow`, LSTAT otherwise): validate; require
symlink-or-exists; for LSTAT on a symlink use the platform symlink
introspection; otherwise dereference one level of symlink and emit the
generic attribute record. -/
def handle_stat (cfg : SftpConfig) (o : FsOracle) (msg : SftpMessage)
    (follow : Bool) : Reply × List Syscall :=
  if validate_path cfg.source_path msg.filename then
    if !o.isSymLink msg.filename && !o.fileExists msg.filename then
      (Reply.status SftpStatus.noSuchFile (some ("no such file".toList)),
       [Syscall.statFamily msg.filename])
    else if !follow && o.isSymLink msg.filename then
      (Reply.attrReply,
       [Syscall.statFamily msg.filename, Syscall.symlinkAttr msg.filename])
    else if o.isSymLink msg.filename then
      (Reply.attrReply,
       [Syscall.statFamily msg.filename,
        Syscall.statLinkTarget (o.symLinkTarget msg.filename)])
    else (Reply.attrReply, [Syscall.statFamily msg.filename])
  else (perm_denied_reply, [])

/-- `handle_fstat`: look up the file handle; on miss BAD_MESSAGE `fstat`;
otherwise reply with the attribute record of the underlying file. -/
def handle_fstat (st : ServerState) (h : Nat) : Reply :=
  match st.open_file_handles.lookup h with
  | none => bad_handle_reply ("fstat".toList)
  | some _ => Reply.attrReply

/-- The conditional attribute-application chain shared by SETSTAT and
FSETSTAT (`handle_setstat` after path resolution): size, permissions,
utime, chown in order, each gated on its flag bit, stopping at the first
failure.  `tr0` is the trace accumulated before the chain. -/
def setstat_apply (cfg : SftpConfig) (o : FsOracle) (fname : List Char)
    (a : SftpAttrs) (tr0 : List Syscall) : Reply × List Syscall :=
  let hasSize := a.flags.land SSH_FILEXFER_ATTR_SIZE != 0
  let tr1 := tr0 ++ (if hasSize then [Syscall.resize fname a.size] else [])
  if hasSize && !o.resizeOk fname then (failure_reply, tr1)
  else
    let hasPerms := a.flags.land SSH_FILEXFER_ATTR_PERMISSIONS != 0
    let tr2 := tr1 ++ (if hasPerms then [Syscall.setPermissions fname a.permissions] else [])
    if hasPerms && !o.setPermissionsOk fname then (failure_reply, tr2)
    else
      let hasTime := a.flags.land SSH_FILEXFER_ATTR_ACMODTIME != 0
      let tr3 := tr2 ++ (if hasTime then [Syscall.sysUtime fname a.atime a.mtime] else [])
      if hasTime && decide (o.utimeRet fname a.atime a.mtime < 0) then (failure_reply, tr3)
      else
        let hasOwn := a.flags.land SSH_FILEXFER_ATTR_UIDGID != 0
        let ruid := reverse_id_for cfg.uid_mappings a.uid a.uid
        let rgid := reverse_id_for cfg.gid_mappings a.gid a.gid
        let tr4 := tr3 ++ (if hasOwn then [Syscall.chown fname ruid rgid] else [])
        if hasOwn && decide (o.chownRet fname ruid rgid < 0) then (failure_reply, tr4)
        else (ok_reply, tr4)

/-- `handle_setstat` (SETSTAT / FSETSTAT): FSETSTAT resolves the path through
the file-handle table (BAD_MESSAGE `setstat` on miss); SETSTAT validates the
request path and requires symlink-or-exists; then the attribute chain is
applied. -/
def handle_setstat (cfg : SftpConfig) (o : FsOracle) (st : ServerState)
    (isFsetstat : Bool) (h : Nat) (msg : SftpMessage) : Reply × List Syscall :=
  if isFsetstat then
    match st.open_file_handles.lookup h with
    | none => (bad_handle_reply ("setstat".toList), [])
    | some fname => setstat_apply cfg o fname msg.attr []
  else
    if validate_path cfg.source_path msg.filename then
      if !o.isSymLink msg.filename && !o.fileExists msg.filename then
        (Reply.status SftpStatus.noSuchFile (some ("no such file".toList)),
         [Syscall.statFamily msg.filename])
      else setstat_apply cfg o msg.filename msg.attr [Syscall.statFamily msg.filename]
    else (perm_denied_reply, [])

/-- `handle_open`: validate; build the access mode from the flags; compute
`existed` before opening; open; when the file did not exist, apply the
requested permissions and chown with the parent directory's owner/group as
reverse-map fallback; allocate a handle. -/
def handle_open (cfg : SftpConfig) (o : FsOracle) (msg : SftpMessage) :
    Reply × List Syscall :=
  if validate_path cfg.source_path msg.filename then
    let mode := open_mode_from_flags msg.flags
    let existed := o.isSymLink msg.filename || o.fileExists msg.filename
    let t1 := [Syscall.statFamily msg.filename, Syscall.sysOpen msg.filename mode]
    if o.openOk msg.filename mode then
      if existed then
        (if o.allocOk then (Reply.handleReply, t1) else (failure_reply, t1))
      else
        if o.setPermissionsOk msg.filename then
          let parent := o.parentPath msg.filename
          let new_uid := reverse_id_for cfg.uid_mappings msg.attr.uid (o.ownerId parent)
          let new_gid := reverse_id_for cfg.gid_mappings msg.attr.gid (o.groupId parent)
          let t3 := t1 ++ [Syscall.setPermissions msg.filename msg.attr.permissions,
                           Syscall.statParent parent,
                           Syscall.chown msg.filename new_uid new_gid]
          if o.chownRet msg.filename new_uid new_gid < 0 then (failure_reply, t3)
          else if o.allocOk then (Reply.handleReply, t3) else (failure_reply, t3)
        else
          (failure_reply,
           t1 ++ [Syscall.setPermissions msg.filename msg.attr.permissions])
    else (failure_reply, t1)
  else (perm_denied_reply, [])

/-- `handle_read`: look up the handle (BAD_MESSAGE `read` on miss); seek to
the offset; read at most `min(len, 65536)` bytes; negative read is FAILURE
with the error string, zero is EOF, positive is a data reply. -/
def handle_read (o : FsOracle) (st : ServerState) (h : Nat)
    (offset len : Nat) : Reply :=
  match st.open_file_handles.lookup h with
  | none => bad_handle_reply ("read".toList)
  | some fname =>
    if o.seekOk fname offset then
      let r := o.readRet fname offset (min len max_packet_size)
      if r < 0 then Reply.status SftpStatus.failure (some (o.errorString fname))
      else if r = 0 then Reply.status SftpStatus.eof (some ("End of file".toList))
      else Reply.dataReply r.toNat
    else failure_reply

/-- `handle_write`: look up the handle (BAD_MESSAGE `write` on miss); seek to
the offset; write the whole payload (the source's chunk-and-flush loop is
abstracted to its overall outcome). -/
def handle_write (o : FsOracle) (st : ServerState) (h : Nat) (offset : Nat) :
    Reply :=
  match st.open_file_handles.lookup h with
  | none => bad_handle_reply ("write".toList)
  | some fname =>
    if o.seekOk fname offset then
      (if o.writeAllOk fname then ok_reply else failure_reply)
    else failure_reply

/-- One READDIR batch: the source takes `min(size, 50)` entries off the
front of the remaining snapshot. -/
def readdir_batch (entries : List (List Char)) :
    List (List Char) × List (List Char) :=
  (entries.take (min entries.length max_num_entries_per_packet),
   entries.drop (min entries.length max_num_entries_per_packet))

/-- Replace the snapshot stored under a directory handle. -/
def set_dir_entries : List (Nat × List (List Char)) → Nat → List (List Char) →
    List (Nat × List (List Char))
  | [], _, _ => []
  | (k, v) :: rest, h, nv =>
      if k = h then (h, nv) :: rest else (k, v) :: set_dir_entries rest h nv

/-- `handle_readdir`: look up the directory handle (BAD_MESSAGE `readdir` on
miss); EOF when the remaining snapshot is empty; otherwise remove and reply
with one batch from the front. -/
def handle_readdir (st : ServerState) (h : Nat) : Reply × ServerState :=
  match st.open_dir_handles.lookup h with
  | none => (bad_handle_reply ("readdir".toList), st)
  | some entries =>
    if entries.isEmpty then (Reply.status SftpStatus.eof none, st)
    else
      (Reply.namesReply (readdir_batch entries).1,
       { st with open_dir_handles := set_dir_entries st.open_dir_handles h (readdir_batch entries).2 })

/-- All entries returned by iterating READDIR batches until the snapshot is
exhausted. -/
def readdir_collect (l : List (List Char)) : List (List Char) :=
  if l.isEmpty then []
  else (readdir_batch l).1 ++ readdir_collect (readdir_batch l).2
termination_by l.length
decreasing_by
  rename_i hl
  simp only [readdir_batch, List.length_drop]
  rcases l with _ | ⟨a, l⟩
  · simp at hl
  · exact Nat.sub_lt (Nat.succ_pos _)
      (Nat.lt_min.mpr ⟨Nat.succ_pos _, by simp [max_num_entries_per_packet]⟩)

/-- `handle_close`: erase the key from both tables; BAD_MESSAGE `close` when
neither table held it, OK otherwise. -/
def handle_close (st : ServerState) (h : Nat) : Reply × ServerState :=
  let inFiles := (st.open_file_handles.lookup h).isSome
  let inDirs := (st.open_dir_handles.lookup h).isSome
  if !inFiles && !inDirs then (bad_handle_reply ("close".toList), st)
  else
    (ok_reply,
     { open_file_handles := st.open_file_handles.filter (fun p => p.1 != h),
       open_dir_handles := st.open_dir_handles.filter (fun p => p.1 != h) })

/-- `handle_remove`: validate; unlink. -/
def handle_remove (cfg : SftpConfig) (o : FsOracle) (msg : SftpMessage) :
    Reply × List Syscall :=
  if validate_path cfg.source_path msg.filename then
    if o.removeOk msg.filename then (ok_reply, [Syscall.sysRemove msg.filename])
    else (failure_reply, [Syscall.sysRemove msg.filename])
  else (perm_denied_reply, [])

/-- `handle_rename`: validate the source; require symlink-or-exists
(NO_SUCH_FILE otherwise); validate the target; remove an existing target
first; then rename. -/
def handle_rename (cfg : SftpConfig) (o : FsOracle) (msg : SftpMessage) :
    Reply × List Syscall :=
  if validate_path cfg.source_path msg.filename then
    if !o.isSymLink msg.filename && !o.fileExists msg.filename then
      (Reply.status SftpStatus.noSuchFile (some ("no such file".toList)),
       [Syscall.statFamily msg.filename])
    else
      if validate_path cfg.source_path msg.msgData then
        if o.fileExists msg.msgData then
          if o.removeOk msg.msgData then
            if o.renameOk msg.filename msg.msgData then
              (ok_reply,
               [Syscall.statFamily msg.filename, Syscall.statFamily msg.msgData,
                Syscall.sysRemove msg.msgData,
                Syscall.sysRename msg.filename msg.msgData])
            else
              (failure_reply,
               [Syscall.statFamily msg.filename, Syscall.statFamily msg.msgData,
                Syscall.sysRemove msg.msgData,
                Syscall.sysRename msg.filename msg.msgData])
          else
            (failure_reply,
             [Syscall.statFamily msg.filename, Syscall.statFamily msg.msgData,
              Syscall.sysRemove msg.msgData])
        else
          if o.renameOk msg.filename msg.msgData then
            (ok_reply,
             [Syscall.statFamily msg.filename, Syscall.statFamily msg.msgData,
              Syscall.sysRename msg.filename msg.msgData])
          else
            (failure_reply,
             [Syscall.statFamily msg.filename, Syscall.statFamily msg.msgData,
              Syscall.sysRename msg.filename msg.msgData])
      else (perm_denied_reply, [Syscall.statFamily msg.filename])
  else (perm_denied_reply, [])

/-- `handle_readlink`: validate; read the link target; NO_SUCH_FILE with
body `invalid link` when empty; otherwise a single name entry. -/
def handle_readlink (cfg : SftpConfig) (o : FsOracle) (msg : SftpMessage) :
    Reply × List Syscall :=
  if validate_path cfg.source_path msg.filename then
    let link := o.symLinkTarget msg.filename
    if link.isEmpty then
      (Reply.status SftpStatus.noSuchFile (some ("invalid link".toList)),
       [Syscall.statFamily msg.filename])
    else (Reply.namesReply [link], [Syscall.statFamily msg.filename])
  else (perm_denied_reply, [])

/-- `handle_symlink`: the message carries `old_name` as filename and
`new_name` as data; only `new_name` is validated; the platform symlink is
invoked with a directory flag obtained by statting `old_name`. -/
def handle_symlink (cfg : SftpConfig) (o : FsOracle) (msg : SftpMessage) :
    Reply × List Syscall :=
  if validate_path cfg.source_path msg.msgData then
    let d := o.isDir msg.filename
    if o.symlinkOk msg.filename msg.msgData then
      (ok_reply,
       [Syscall.statLinkSource msg.filename,
        Syscall.sysSymlink msg.filename msg.msgData d])
    else
      (failure_reply,
       [Syscall.statLinkSource msg.filename,
        Syscall.sysSymlink msg.filename msg.msgData d])
  else (perm_denied_reply, [])

/-- `handle_extended`: dispatch on the submessage name; `hardlink@openssh.com`
validates only the new name and calls the platform link;
`posix-rename@openssh.com` delegates to RENAME; anything else is
OP_UNSUPPORTED (missing submessage is FAILURE). -/
def handle_extended (cfg : SftpConfig) (o : FsOracle) (msg : SftpMessage) :
    Reply × List Syscall :=
  match msg.submessage with
  | none => (failure_reply, [])
  | some method =>
    if method = "hardlink@openssh.com".toList then
      if validate_path cfg.source_path msg.msgData then
        if o.linkOk msg.filename msg.msgData then
          (ok_reply, [Syscall.sysLink msg.filename msg.msgData])
        else (failure_reply, [Syscall.sysLink msg.filename msg.msgData])
      else (perm_denied_reply, [])
    else if method = "posix-rename@openssh.com".toList then
      handle_rename cfg o msg
    else (unsupported_reply, [])

/-- Every path argument a syscall carries, as the claim reads it ("any path
argument that is passed to a filesystem or platform syscall"). -/
def syscall_all_paths : Syscall → List (List Char)
  | Syscall.sysOpen p _ => [p]
  | Syscall.sysMkdir p => [p]
  | Syscall.setPermissions p _ => [p]
  | Syscall.chown p _ _ => [p]
  | Syscall.sysRmdir p => [p]
  | Syscall.sysRemove p => [p]
  | Syscall.sysRename a b => [a, b]
  | Syscall.sysSymlink a b _ => [a, b]
  | Syscall.sysLink a b => [a, b]
  | Syscall.sysUtime p _ _ => [p]
  | Syscall.resize p _ => [p]
  | Syscall.statFamily p => [p]
  | Syscall.statParent p => [p]
  | Syscall.statLinkSource p => [p]
  | Syscall.statLinkTarget p => [p]
  | Syscall.symlinkAttr p => [p]
  | Syscall.entryInfoList p => [p]

/-- The path arguments the server promises to have validated: excludes the
link text (`old_name`) of SYMLINK / hardlink and the derived paths the server
itself computes (parent directory, symlink target). -/
def syscall_checked_paths : Syscall → List (List Char)
  | Syscall.sysSymlink _ b _ => [b]
  | Syscall.sysLink _ b => [b]
  | Syscall.statParent _ => []
  | Syscall.statLinkSource _ => []
  | Syscall.statLinkTarget _ => []
  | sc => syscall_all_paths sc

/-- A syscall all of whose checked path arguments pass the prefix check. -/
def syscall_checked (src : List Char) (sc : Syscall) : Bool :=
  (syscall_checked_paths sc).all (fun p => validate_path src p)

/-! Concrete fixtures used by witnesses and counterexamples. -/

/-- An attribute record with all four flag bits set. -/
def attrsA : SftpAttrs :=
  { size := 4096, uid := 2000, gid := 2000, permissions := 448,
    atime := 10, mtime := 20, flags := 15 }

/-- A configuration with source `/src` and the map `[(1000, 2000)]`. -/
def cfgA : SftpConfig :=
  { source_path := "/src".toList,
    uid_mappings := [((1000 : Int), (2000 : Int))],
    gid_mappings := [((1000 : Int), (2000 : Int))],
    default_uid := 500, default_gid := 500 }

/-- A configuration whose source path is empty. -/
def cfg0 : SftpConfig :=
  { source_path := [], uid_mappings := [], gid_mappings := [],
    default_uid := 500, default_gid := 500 }

/-- An oracle on which every operation succeeds and no file exists yet. -/
def oracleA : FsOracle :=
  { fileExists := fun _ => false, dirExists := fun _ => true,
    isSymLink := fun _ => false, isDir := fun _ => false,
    isReadable := fun _ => true, parentPath := fun _ => "/".toList,
    ownerId := fun _ => 1000, groupId := fun _ => 1000,
    symLinkTarget := fun _ => "/src/t".toList,
    entryList := fun _ => [],
    absFilePath := fun p => p,
    openOk := fun _ _ => true, mkdirOk := fun _ => true,
    setPermissionsOk := fun _ => true, chownRet := fun _ _ _ => 0,
    rmdirOk := fun _ => true, removeOk := fun _ => true,
    renameOk := fun _ _ => true, symlinkOk := fun _ _ => true,
    linkOk := fun _ _ => true, utimeRet := fun _ _ _ => 0,
    resizeOk := fun _ => true, seekOk := fun _ _ => true,
    readRet := fun _ _ _ => 1, writeAllOk := fun _ => true,
    errorString := fun _ => [], allocOk := true }

/-- Like `oracleA` but every file exists. -/
def oracleEx : FsOracle := { oracleA with fileExists := fun _ => true }

/-- A message both of whose paths are outside `/src`. -/
def msgBad : SftpMessage :=
  { filename := "/etc/passwd".toList, msgData := "/etc/target".toList,
    flags := 0, attr := attrsA, submessage := some ("hardlink@openssh.com".toList) }

/-- A rename request with valid source and invalid target. -/
def msgRen : SftpMessage :=
  { filename := "/src/a".toList, msgData := "/etc/b".toList,
    flags := 0, attr := attrsA, submessage := none }

/-- A request with both paths inside `/src` and flags = WRITE alone. -/
def msgGood : SftpMessage :=
  { filename := "/src/a".toList, msgData := "/src/b".toList,
    flags := SSH_FXF_WRITE, attr := attrsA,
    submessage := some ("hardlink@openssh.com".toList) }

/-- An mkdir request for `/src/d`. -/
def msgMk : SftpMessage :=
  { filename := "/src/d".toList, msgData := [], flags := 0, attr := attrsA,
    submessage := none }

/-- A symlink request: link text outside the source, link location inside. -/
def msgSym : SftpMessage :=
  { filename := "/etc/passwd".toList, msgData := "/src/link".toList,
    flags := 0, attr := attrsA, submessage := none }

/-- A three-entry directory snapshot. -/
def entriesA : List (List Char) :=
  ["alpha".toList, "beta".toList, "gamma".toList]

/-- A state with one open file handle and one open directory handle. -/
def stA : ServerState :=
  { open_file_handles := [(7, "/src/f".toList)],
    open_dir_handles := [(9, entriesA)] }

/-- The empty handle state. -/
def stEmpty : ServerState := { open_file_handles := [], open_dir_handles := [] }

/-! Helper lemmas. -/

theorem validate_path_nil (p : List Char) : validate_path [] p = false := by
  simp [validate_path]

theorem handle_realpath_invalid (cfg : SftpConfig) (o : FsOracle) (msg : SftpMessage)
    (hf : validate_path cfg.source_path msg.filename = false) :
    handle_realpath cfg o msg = (perm_denied_reply, []) := by
  simp [handle_realpath, hf]

theorem handle_opendir_invalid (cfg : SftpConfig) (o : FsOracle) (msg : SftpMessage)
    (hf : validate_path cfg.source_path msg.filename = false) :
    handle_opendir cfg o msg = (perm_denied_reply, [], none) := by
  simp [handle_opendir, hf]

theorem handle_mkdir_invalid (cfg : SftpConfig) (o : FsOracle) (msg : SftpMessage)
    (hf : validate_path cfg.source_path msg.filename = false) :
    handle_mkdir cfg o msg = (perm_denied_reply, []) := by
  simp [handle_mkdir, hf]

theorem handle_rmdir_invalid (cfg : SftpConfig) (o : FsOracle) (msg : SftpMessage)
    (hf : validate_path cfg.source_path msg.filename = false) :
    handle_rmdir cfg o msg = (perm_denied_reply, []) := by
  simp [handle_rmdir, hf]

theorem handle_stat_invalid (cfg : SftpConfig) (o : FsOracle) (msg : SftpMessage)
    (follow : Bool)
    (hf : validate_path cfg.source_path msg.filename = false) :
    handle_stat cfg o msg follow = (perm_denied_reply, []) := by
  simp [handle_stat, hf]

theorem handle_setstat_invalid (cfg : SftpConfig) (o : FsOracle) (st : ServerState)
    (h : Nat) (msg : SftpMessage)
    (hf : validate_path cfg.source_path msg.filename = false) :
    handle_setstat cfg o st false h msg = (perm_denied_reply, []) := by
  simp [handle_setstat, hf]

theorem handle_open_invalid (cfg : SftpConfig) (o : FsOracle) (msg : SftpMessage)
    (hf : validate_path cfg.source_path msg.filename = false) :
    handle_open cfg o msg = (perm_denied_reply, []) := by
  simp [handle_open, hf]

theorem handle_remove_invalid (cfg : SftpConfig) (o : FsOracle) (msg : SftpMessage)
    (hf : validate_path cfg.source_path msg.filename = false) :
    handle_remove cfg o msg = (perm_denied_reply, []) := by
  simp [handle_remove, hf]

theorem handle_readlink_invalid (cfg : SftpConfig) (o : FsOracle) (msg : SftpMessage)
    (hf : validate_path cfg.source_path msg.filename = false) :
    handle_readlink cfg o msg = (perm_denied_reply, []) := by
  simp [handle_readlink, hf]

theorem handle_rename_invalid (cfg : SftpConfig) (o : FsOracle) (msg : SftpMessage)
    (hf : validate_path cfg.source_path msg.filename = false) :
    handle_rename cfg o msg = (perm_denied_reply, []) := by
  simp [handle_rename, hf]

theorem handle_symlink_invalid (cfg : SftpConfig) (o : FsOracle) (msg : SftpMessage)
    (hd : validate_path cfg.source_path msg.msgData = false) :
    handle_symlink cfg o msg = (perm_denied_reply, []) := by
  simp [handle_symlink, hd]

theorem handle_hardlink_invalid (cfg : SftpConfig) (o : FsOracle) (msg : SftpMessage)
    (hsub : msg.submessage = some ("hardlink@openssh.com".toList))
    (hd : validate_path cfg.source_path msg.msgData = false) :
    handle_extended cfg o msg = (perm_denied_reply, []) := by
  simp [handle_extended, hsub, hd]

theorem handle_rename_target_invalid (cfg : SftpConfig) (o : FsOracle) (msg : SftpMessage)
    (h1 : validate_path cfg.source_path msg.filename = true)
    (h2 : (o.isSymLink msg.filename || o.fileExists msg.filename) = true)
    (h3 : validate_path cfg.source_path msg.msgData = false) :
    handle_rename cfg o msg = (perm_denied_reply, [Syscall.statFamily msg.filename]) := by
  have hx : (!o.isSymLink msg.filename && !o.fileExists msg.filename) = false := by
    rw [← Bool.not_or, h2]; rfl
  simp [handle_rename, h1, hx, h3]

/-! Claim theorems. -/

/-- C3: the forward id mapping returns the fallback on the `NO_ID_INFO`
sentinel; otherwise the first entry whose first component equals the input
decides (its second component, or the fallback when that equals
`DEFAULT_ID`); the input is returned unchanged when no entry matches. -/
theorem claim3_forward_map_spec_eq (id_maps : List (Int × Int)) (id fallback : Int) :
    mapped_id_for id_maps id fallback = forward_map_spec id_maps id fallback := by
  unfold mapped_id_for forward_map_spec
  by_cases h : id = no_id_info_available
  · simp [h]
  · simp only [h, if_false]
    induction id_maps with
    | nil => simp [forward_scan_spec]
    | cons p rest ih =>
      by_cases hp : id = p.fst
      · simp [forward_scan_spec, List.find?_cons, hp]
      · simp only [forward_scan_spec, List.find?_cons, hp, if_false]
        rw [show (id == p.fst) = false by simpa using hp]
        exact ih

/-- C4: the reverse id mapping returns the first component of the first
entry whose second component equals the input, the fallback on no match;
first match wins, so duplicate keys are accepted and the earlier entry
decides. -/
theorem claim4_reverse_map_spec_eq :
    (∀ (id_maps : List (Int × Int)) (id fallback : Int),
       reverse_id_for id_maps id fallback = reverse_scan_spec id_maps id fallback) ∧
    (∀ (a b v r : Int) (rest : List (Int × Int)),
       reverse_id_for ((a, v) :: (b, v) :: rest) v r = a) := by
  constructor
  · intro id_maps id fallback
    unfold reverse_id_for
    induction id_maps with
    | nil => simp [reverse_scan_spec]
    | cons p rest ih =>
      by_cases hp : id = p.snd
      · simp [reverse_scan_spec, List.find?_cons, hp]
      · simp only [reverse_scan_spec, List.find?_cons, hp, if_false]
        rw [show (id == p.snd) = false by simpa using hp]
        exact ih
  · intro a b v r rest
    simp [reverse_id_for, List.find?_cons]

/-- C1 fails as stated for the RENAME target: with source `/src` and a
target `/etc/b` that does not prefix-match, the reply is NO_SUCH_FILE (not
PERMISSION_DENIED) when the source file is absent; and when the source
exists, the PERMISSION_DENIED reply for the invalid target is preceded by a
stat of the source, so a filesystem operation has been performed. -/
theorem claim1_rename_target_cex :
    validate_path cfgA.source_path ("/etc/b".toList) = false ∧
    handle_rename cfgA oracleA msgRen =
      (Reply.status SftpStatus.noSuchFile (some ("no such file".toList)),
       [Syscall.statFamily ("/src/a".toList)]) ∧
    (handle_rename cfgA oracleA msgRen).1 ≠ perm_denied_reply ∧
    handle_rename cfgA oracleEx msgRen =
      (perm_denied_reply, [Syscall.statFamily ("/src/a".toList)]) ∧
    (handle_rename cfgA oracleEx msgRen).2 ≠ ([] : List Syscall) := by
  decide

/-- C1 (amended): every handler that validates a request path (REALPATH,
OPENDIR, MKDIR, RMDIR, STAT, LSTAT, SETSTAT, OPEN, REMOVE, RENAME source,
READLINK, SYMLINK new name, hardlink new name) replies PERMISSION_DENIED and
performs no filesystem operation when that path fails the byte-prefix check.
The RENAME target check is reached only when the source path is valid and
names an existing file or symlink — a missing source yields NO_SUCH_FILE
even when the target is invalid — and by then the stat of the source has
already been performed; no further filesystem operation occurs. -/
theorem claim1_invalid_path_denied_amended
    (cfg : SftpConfig) (o : FsOracle) (msg : SftpMessage) (st : ServerState)
    (h : Nat) (follow : Bool)
    (hf : validate_path cfg.source_path msg.filename = false)
    (hd : validate_path cfg.source_path msg.msgData = false) :
    handle_realpath cfg o msg = (perm_denied_reply, []) ∧
    handle_opendir cfg o msg = (perm_denied_reply, [], none) ∧
    handle_mkdir cfg o msg = (perm_denied_reply, []) ∧
    handle_rmdir cfg o msg = (perm_denied_reply, []) ∧
    handle_stat cfg o msg follow = (perm_denied_reply, []) ∧
    handle_setstat cfg o st false h msg = (perm_denied_reply, []) ∧
    handle_open cfg o msg = (perm_denied_reply, []) ∧
    handle_remove cfg o msg = (perm_denied_reply, []) ∧
    handle_readlink cfg o msg = (perm_denied_reply, []) ∧
    handle_rename cfg o msg = (perm_denied_reply, []) ∧
    handle_symlink cfg o msg = (perm_denied_reply, []) ∧
    handle_extended cfg o
      { msg with submessage := some ("hardlink@openssh.com".toList) } =
      (perm_denied_reply, []) ∧
    (∀ msg2 : SftpMessage,
       validate_path cfg.source_path msg2.filename = true →
       (o.isSymLink msg2.filename || o.fileExists msg2.filename) = true →
       validate_path cfg.source_path msg2.msgData = false →
       handle_rename cfg o msg2 =
         (perm_denied_reply, [Syscall.statFamily msg2.filename])) :=
  ⟨handle_realpath_invalid cfg o msg hf,
   handle_opendir_invalid cfg o msg hf,
   handle_mkdir_invalid cfg o msg hf,
   handle_rmdir_invalid cfg o msg hf,
   handle_stat_invalid cfg o msg follow hf,
   handle_setstat_invalid cfg o st h msg hf,
   handle_open_invalid cfg o msg hf,
   handle_remove_invalid cfg o msg hf,
   handle_readlink_invalid cfg o msg hf,
   handle_rename_invalid cfg o msg hf,
   handle_symlink_invalid cfg o msg hd,
   handle_hardlink_invalid cfg o _ rfl hd,
   fun msg2 h1 h2 h3 => handle_rename_target_invalid cfg o msg2 h1 h2 h3⟩

/-- C1 witness: the amended theorem applied at `/etc/passwd` against source
`/src`, and the rename-target case at source `/src/a` (existing), target
`/etc/b`. -/
theorem claim1_invalid_path_denied_amended_witness :
    handle_realpath cfgA oracleA msgBad = (perm_denied_reply, []) ∧
    handle_open cfgA oracleA msgBad = (perm_denied_reply, []) ∧
    handle_symlink cfgA oracleA msgBad = (perm_denied_reply, []) ∧
    handle_rename cfgA oracleEx msgRen =
      (perm_denied_reply, [Syscall.statFamily ("/src/a".toList)]) := by
  have h1 := claim1_invalid_path_denied_amended cfgA oracleA msgBad stEmpty 0 true
    (by decide) (by decide)
  have h2 := claim1_invalid_path_denied_amended cfgA oracleEx msgBad stEmpty 0 true
    (by decide) (by decide)
  obtain ⟨a1, _, _, _, _, _, a7, _, _, _, a11, _, _⟩ := h1
  obtain ⟨_, _, _, _, _, _, _, _, _, _, _, _, b13⟩ := h2
  exact ⟨a1, a7, a11, b13 msgRen (by decide) (by decide) (by decide)⟩

/-- C10: with an empty configured source path, validation fails for every
requested path — even though the empty string is trivially a byte prefix of
every path — so every path-validating handler replies PERMISSION_DENIED. -/
theorem claim10_empty_source_denies_all
    (p : List Char) (cfg : SftpConfig) (o : FsOracle) (msg : SftpMessage)
    (st : ServerState) (h : Nat) (follow : Bool)
    (hsrc : cfg.source_path = []) :
    validate_path [] p = false ∧
    List.isPrefixOf ([] : List Char) p = true ∧
    handle_realpath cfg o msg = (perm_denied_reply, []) ∧
    handle_opendir cfg o msg = (perm_denied_reply, [], none) ∧
    handle_mkdir cfg o msg = (perm_denied_reply, []) ∧
    handle_rmdir cfg o msg = (perm_denied_reply, []) ∧
    handle_stat cfg o msg follow = (perm_denied_reply, []) ∧
    handle_setstat cfg o st false h msg = (perm_denied_reply, []) ∧
    handle_open cfg o msg = (perm_denied_reply, []) ∧
    handle_remove cfg o msg = (perm_denied_reply, []) ∧
    handle_readlink cfg o msg = (perm_denied_reply, []) ∧
    handle_rename cfg o msg = (perm_denied_reply, []) ∧
    handle_symlink cfg o msg = (perm_denied_reply, []) ∧
    handle_extended cfg o
      { msg with submessage := some ("hardlink@openssh.com".toList) } =
      (perm_denied_reply, []) := by
  have hf : validate_path cfg.source_path msg.filename = false := by
    rw [hsrc]; exact validate_path_nil _
  have hd : validate_path cfg.source_path msg.msgData = false := by
    rw [hsrc]; exact validate_path_nil _
  exact ⟨validate_path_nil p, by cases p <;> rfl,
    handle_realpath_invalid cfg o msg hf,
    handle_opendir_invalid cfg o msg hf,
    handle_mkdir_invalid cfg o msg hf,
    handle_rmdir_invalid cfg o msg hf,
    handle_stat_invalid cfg o msg follow hf,
    handle_setstat_invalid cfg o st h msg hf,
    handle_open_invalid cfg o msg hf,
    handle_remove_invalid cfg o msg hf,
    handle_readlink_invalid cfg o msg hf,
    handle_rename_invalid cfg o msg hf,
    handle_symlink_invalid cfg o msg hd,
    handle_hardlink_invalid cfg o _ rfl hd⟩

/-- C10 witness: the theorem applied with the empty source configuration at
a concrete message. -/
theorem claim10_empty_source_denies_all_witness :
    validate_path [] ("/src/a".toList) = false ∧
    handle_open cfg0 oracleA msgGood = (perm_denied_reply, []) := by
  have h := claim10_empty_source_denies_all ("/src/a".toList) cfg0 oracleA msgGood
    stEmpty 0 true rfl
  obtain ⟨a1, _, _, _, _, _, _, _, a9, _, _, _, _, _⟩ := h
  exact ⟨a1, a9⟩

theorem open_mode_append_iff (flags : Nat)
    (hw : flags.land SSH_FXF_WRITE ≠ 0) (hne : flags ≠ SSH_FXF_WRITE) :
    ((open_mode_from_flags flags).append = true ↔ flags.land SSH_FXF_APPEND ≠ 0) := by
  have hw2 : (flags.land SSH_FXF_WRITE != 0) = true := by simpa using hw
  have hne2 : (flags == SSH_FXF_WRITE) = false := by simpa using hne
  unfold open_mode_from_flags
  by_cases h1 : (flags.land SSH_FXF_READ != 0) = true <;>
    by_cases h3 : (flags.land SSH_FXF_APPEND != 0) = true <;>
      by_cases h4 : (flags.land SSH_FXF_TRUNC != 0) = true <;>
        simp_all

theorem handle_open_sysOpen_mem (cfg : SftpConfig) (o : FsOracle) (msg : SftpMessage)
    (hv : validate_path cfg.source_path msg.filename = true) :
    Syscall.sysOpen msg.filename (open_mode_from_flags msg.flags) ∈
      (handle_open cfg o msg).2 := by
  simp only [handle_open, hv, if_true]
  repeat' split
  all_goals simp

/-- C5: a flag word equal to exactly WRITE opens the file write-enabled with
append also enabled (the sshfs O_APPEND workaround), and with read and
truncate off; for any flag word containing WRITE together with any other
flag, append is enabled exactly when the APPEND flag is set.  The open
syscall of a validated OPEN carries the mode computed from the request's
flag word. -/
theorem claim5_write_only_append_workaround
    (cfg : SftpConfig) (o : FsOracle) (msg : SftpMessage)
    (hv : validate_path cfg.source_path msg.filename = true) :
    (open_mode_from_flags SSH_FXF_WRITE).write = true ∧
    (open_mode_from_flags SSH_FXF_WRITE).append = true ∧
    (open_mode_from_flags SSH_FXF_WRITE).read = false ∧
    (open_mode_from_flags SSH_FXF_WRITE).trunc = false ∧
    (∀ flags : Nat, flags.land SSH_FXF_WRITE ≠ 0 → flags ≠ SSH_FXF_WRITE →
       ((open_mode_from_flags flags).append = true ↔ flags.land SSH_FXF_APPEND ≠ 0)) ∧
    Syscall.sysOpen msg.filename (open_mode_from_flags msg.flags) ∈
      (handle_open cfg o msg).2 :=
  ⟨by decide, by decide, by decide, by decide,
   open_mode_append_iff,
   handle_open_sysOpen_mem cfg o msg hv⟩

/-- C5 witness: OPEN of `/src/a` with flags = WRITE alone, and the general
append clause instantiated at flags = WRITE|APPEND = 6. -/
theorem claim5_write_only_append_workaround_witness :
    (open_mode_from_flags SSH_FXF_WRITE).append = true ∧
    (open_mode_from_flags 6).append = true ∧
    Syscall.sysOpen ("/src/a".toList) (open_mode_from_flags SSH_FXF_WRITE) ∈
      (handle_open cfgA oracleA msgGood).2 := by
  have h := claim5_write_only_append_workaround cfgA oracleA msgGood (by decide)
  exact ⟨h.2.1, (h.2.2.2.2.1 6 (by decide) (by decide)).mpr (by decide), h.2.2.2.2.2⟩

/-- C6: RENAME with validated source and target replies NO_SUCH_FILE when
the source is neither a symlink nor an existing file; otherwise an existing
target is removed first (FAILURE when the removal fails, with no rename
attempted), then the source is renamed onto the target (OK on success,
FAILURE on failure) — a destructive overwrite. -/
theorem claim6_rename_overwrites_target
    (cfg : SftpConfig) (o : FsOracle) (msg : SftpMessage)
    (hs : validate_path cfg.source_path msg.filename = true)
    (ht : validate_path cfg.source_path msg.msgData = true) :
    (o.isSymLink msg.filename = false → o.fileExists msg.filename = false →
       handle_rename cfg o msg =
         (Reply.status SftpStatus.noSuchFile (some ("no such file".toList)),
          [Syscall.statFamily msg.filename])) ∧
    ((o.isSymLink msg.filename || o.fileExists msg.filename) = true →
       (o.fileExists msg.msgData = true → o.removeOk msg.msgData = false →
          handle_rename cfg o msg =
            (failure_reply,
             [Syscall.statFamily msg.filename, Syscall.statFamily msg.msgData,
              Syscall.sysRemove msg.msgData])) ∧
       (o.fileExists msg.msgData = true → o.removeOk msg.msgData = true →
          handle_rename cfg o msg =
            ((if o.renameOk msg.filename msg.msgData then ok_reply else failure_reply),
             [Syscall.statFamily msg.filename, Syscall.statFamily msg.msgData,
              Syscall.sysRemove msg.msgData,
              Syscall.sysRename msg.filename msg.msgData])) ∧
       (o.fileExists msg.msgData = false →
          handle_rename cfg o msg =
            ((if o.renameOk msg.filename msg.msgData then ok_reply else failure_reply),
             [Syscall.statFamily msg.filename, Syscall.statFamily msg.msgData,
              Syscall.sysRename msg.filename msg.msgData]))) := by
  constructor
  · intro h1 h2
    simp [handle_rename, hs, h1, h2]
  · intro hex
    have hx : (!o.isSymLink msg.filename && !o.fileExists msg.filename) = false := by
      rw [← Bool.not_or, hex]; rfl
    refine ⟨fun he hr => ?_, fun he hr => ?_, fun he => ?_⟩
    · simp [handle_rename, hs, ht, hx, he, hr]
    · by_cases hren : o.renameOk msg.filename msg.msgData = true <;>
        simp [handle_rename, hs, ht, hx, he, hr, hren]
    · by_cases hren : o.renameOk msg.filename msg.msgData = true <;>
        simp [handle_rename, hs, ht, hx, he, hren]

/-- C6 witness: rename `/src/a` onto `/src/b` where both exist and all
operations succeed: remove-then-rename, reply OK. -/
theorem claim6_rename_overwrites_target_witness :
    handle_rename cfgA oracleEx msgGood =
      (ok_reply,
       [Syscall.statFamily ("/src/a".toList), Syscall.statFamily ("/src/b".toList),
        Syscall.sysRemove ("/src/b".toList),
        Syscall.sysRename ("/src/a".toList) ("/src/b".toList)]) := by
  have h := claim6_rename_overwrites_target cfgA oracleEx msgGood (by decide) (by decide)
  have h2 := (h.2 (by decide)).2.1 (by decide) (by decide)
  simpa using h2

/-- C9: a validated MKDIR whose mkdir and permission steps succeed invokes
the platform chown with the reverse-mapped uid/gid of the request, using the
parent directory's owner and group as the reverse-map fallbacks; with map
`[(1000, 2000)]` and remote uid 2000 the reverse map yields host uid 1000. -/
theorem claim9_mkdir_chown_parent_fallback
    (cfg : SftpConfig) (o : FsOracle) (msg : SftpMessage)
    (hv : validate_path cfg.source_path msg.filename = true)
    (hmk : o.mkdirOk msg.filename = true)
    (hsp : o.setPermissionsOk msg.filename = true) :
    Syscall.chown msg.filename
        (reverse_id_for cfg.uid_mappings msg.attr.uid
          (o.ownerId (o.parentPath msg.filename)))
        (reverse_id_for cfg.gid_mappings msg.attr.gid
          (o.groupId (o.parentPath msg.filename)))
      ∈ (handle_mkdir cfg o msg).2 ∧
    reverse_id_for [((1000 : Int), (2000 : Int))] 2000 1000 = 1000 := by
  constructor
  · simp only [handle_mkdir, hv, hmk, hsp, if_true]
    split <;> simp
  · decide

/-- C9 witness: MKDIR `/src/d` with `uid_map = [(1000, 2000)]`, request uid
2000 and a parent owned by host uid 1000 invokes chown with uid 1000. -/
theorem claim9_mkdir_chown_parent_fallback_witness :
    Syscall.chown ("/src/d".toList)
        (reverse_id_for cfgA.uid_mappings msgMk.attr.uid
          (oracleA.ownerId (oracleA.parentPath msgMk.filename)))
        (reverse_id_for cfgA.gid_mappings msgMk.attr.gid
          (oracleA.groupId (oracleA.parentPath msgMk.filename)))
      ∈ (handle_mkdir cfgA oracleA msgMk).2 ∧
    reverse_id_for cfgA.uid_mappings msgMk.attr.uid
        (oracleA.ownerId (oracleA.parentPath msgMk.filename)) = 1000 := by
  have h := claim9_mkdir_chown_parent_fallback cfgA oracleA msgMk (by decide) rfl rfl
  exact ⟨h.1, by decide⟩

theorem take_min_eq (l : List (List Char)) (k : Nat) :
    l.take (min l.length k) = l.take k := by
  rcases Nat.le_total l.length k with h | h
  · rw [min_eq_left h, List.take_length, List.take_of_length_le h]
  · rw [min_eq_right h]

theorem drop_min_eq (l : List (List Char)) (k : Nat) :
    l.drop (min l.length k) = l.drop k := by
  rcases Nat.le_total l.length k with h | h
  · rw [min_eq_left h, List.drop_length, List.drop_eq_nil_of_le h]
  · rw [min_eq_right h]

theorem set_dir_entries_lookup (l : List (Nat × List (List Char))) (h : Nat)
    (nv s : List (List Char)) (hs : l.lookup h = some s) :
    (set_dir_entries l h nv).lookup h = some nv := by
  induction l with
  | nil => simp [List.lookup] at hs
  | cons p rest ih =>
    rcases p with ⟨k, v⟩
    by_cases hk : k = h
    · subst hk
      simp [set_dir_entries, List.lookup]
    · have hk2 : (h == k) = false := by simpa using (Ne.symm hk)
      simp only [set_dir_entries, if_neg hk, List.lookup, hk2] at hs ⊢
      exact ih hs

theorem readdir_collect_id (l : List (List Char)) : readdir_collect l = l := by
  generalize hn : l.length = n
  induction n using Nat.strong_induction_on generalizing l with
  | _ n ih =>
    subst hn
    unfold readdir_collect
    by_cases he : l.isEmpty
    · rw [if_pos he]
      rcases l with _ | ⟨a, t⟩
      · rfl
      · simp at he
    · rw [if_neg he]
      have hd : (readdir_batch l).2.length < l.length := by
        simp only [readdir_batch, List.length_drop]
        rcases l with _ | ⟨a, t⟩
        · simp at he
        · exact Nat.sub_lt (Nat.succ_pos _)
            (Nat.lt_min.mpr ⟨Nat.succ_pos _, by simp [max_num_entries_per_packet]⟩)
      rw [ih _ hd _ rfl]
      simp [readdir_batch]

/-- C7: on a directory handle holding snapshot remainder `s`, READDIR
replies EOF exactly when `s` is empty; otherwise it returns the first
`min(|s|, 50)` entries (at most 50) and leaves the rest under the handle;
iterating batches until empty returns exactly the snapshot in order, which
for a handle created by OPENDIR is the entry list captured at OPENDIR
time. -/
theorem claim7_readdir_batches_snapshot
    (cfg : SftpConfig) (o : FsOracle) (msg : SftpMessage)
    (st : ServerState) (h : Nat) (s : List (List Char))
    (hs : st.open_dir_handles.lookup h = some s) :
    (s = [] → handle_readdir st h = (Reply.status SftpStatus.eof none, st)) ∧
    (s ≠ [] →
       (handle_readdir st h).1 =
         Reply.namesReply (s.take max_num_entries_per_packet) ∧
       (s.take max_num_entries_per_packet).length ≤ max_num_entries_per_packet ∧
       (handle_readdir st h).2.open_dir_handles.lookup h =
         some (s.drop max_num_entries_per_packet)) ∧
    readdir_collect s = s ∧
    (∀ r tr snap, handle_opendir cfg o msg = (r, tr, some snap) →
       snap = o.entryList msg.filename) := by
  refine ⟨?_, ?_, readdir_collect_id s, ?_⟩
  · intro hnil
    subst hnil
    simp [handle_readdir, hs]
  · intro hne
    have he : s.isEmpty = false := by
      rcases s with _ | ⟨a, t⟩
      · exact absurd rfl hne
      · rfl
    have hred : handle_readdir st h =
        (Reply.namesReply (readdir_batch s).1,
         { st with open_dir_handles :=
             set_dir_entries st.open_dir_handles h (readdir_batch s).2 }) := by
      simp [handle_readdir, hs, he]
    have hbatch1 : (readdir_batch s).1 = s.take max_num_entries_per_packet := by
      simp [readdir_batch, take_min_eq]
    have hbatch2 : (readdir_batch s).2 = s.drop max_num_entries_per_packet := by
      simp [readdir_batch, drop_min_eq]
    refine ⟨?_, ?_, ?_⟩
    · rw [hred, hbatch1]
    · rw [List.length_take]; exact min_le_left _ _
    · rw [hred, hbatch2]
      exact set_dir_entries_lookup st.open_dir_handles h _ s hs
  · intro r tr snap heq
    unfold handle_opendir at heq
    split_ifs at heq <;> simp_all

/-- C7 witness: a three-entry snapshot under handle 9: one READDIR returns
all three entries, leaves the empty remainder, and collecting batches gives
back the snapshot. -/
theorem claim7_readdir_batches_snapshot_witness :
    (handle_readdir stA 9).1 =
      Reply.namesReply (entriesA.take max_num_entries_per_packet) ∧
    (handle_readdir stA 9).2.open_dir_handles.lookup 9 =
      some (entriesA.drop max_num_entries_per_packet) ∧
    readdir_collect entriesA = entriesA := by
  have h := claim7_readdir_batches_snapshot cfgA oracleA msgMk stA 9 entriesA
    (by decide)
  have h2 := h.2.1 (by decide)
  exact ⟨h2.1, h2.2.2, h.2.2.1⟩

theorem lookup_filter_ne {α : Type} (l : List (Nat × α)) (h : Nat) :
    (l.filter (fun p => p.1 != h)).lookup h = none := by
  induction l with
  | nil => rfl
  | cons p rest ih =>
    rcases p with ⟨k, v⟩
    by_cases hk : k = h
    · subst hk
      simpa [List.filter] using ih
    · have hk1 : ((k, v).1 != h) = true := by simpa using hk
      have hk2 : (h == k) = false := by simpa using (Ne.symm hk)
      simp [List.filter, hk1, List.lookup, hk2, ih]

/-- C8: on a handle absent from the open-file table, READ, WRITE, FSTAT and
FSETSTAT reply BAD_MESSAGE naming the operation; READDIR on a handle absent
from the open-directory table replies BAD_MESSAGE `readdir`; CLOSE on a
handle present in neither table replies BAD_MESSAGE `close`; a successful
CLOSE replies OK and removes the key from both tables (so, in particular,
any of the above on `h` after a successful CLOSE(h) yields BAD_MESSAGE). -/
theorem claim8_bad_handle_replies
    (cfg : SftpConfig) (o : FsOracle) (st : ServerState) (h : Nat)
    (offset len : Nat) (msg : SftpMessage) :
    (st.open_file_handles.lookup h = none →
       handle_read o st h offset len = bad_handle_reply ("read".toList) ∧
       handle_write o st h offset = bad_handle_reply ("write".toList) ∧
       handle_fstat st h = bad_handle_reply ("fstat".toList) ∧
       handle_setstat cfg o st true h msg =
         (bad_handle_reply ("setstat".toList), [])) ∧
    (st.open_dir_handles.lookup h = none →
       handle_readdir st h = (bad_handle_reply ("readdir".toList), st)) ∧
    (st.open_file_handles.lookup h = none →
       st.open_dir_handles.lookup h = none →
       handle_close st h = (bad_handle_reply ("close".toList), st)) ∧
    ((st.open_file_handles.lookup h).isSome ∨
       (st.open_dir_handles.lookup h).isSome →
       (handle_close st h).1 = ok_reply ∧
       (handle_close st h).2.open_file_handles.lookup h = none ∧
       (handle_close st h).2.open_dir_handles.lookup h = none) := by
  refine ⟨?_, ?_, ?_, ?_⟩
  · intro hf
    exact ⟨by simp [handle_read, hf], by simp [handle_write, hf],
      by simp [handle_fstat, hf], by simp [handle_setstat, hf]⟩
  · intro hd
    simp [handle_readdir, hd]
  · intro hf hd
    simp [handle_close, hf, hd]
  · intro hor
    have hcond : (!(st.open_file_handles.lookup h).isSome &&
        !(st.open_dir_handles.lookup h).isSome) = false := by
      rcases hor with h1 | h1 <;> simp [h1]
    have hred : handle_close st h =
        (ok_reply,
         { open_file_handles := st.open_file_handles.filter (fun p => p.1 != h),
           open_dir_handles := st.open_dir_handles.filter (fun p => p.1 != h) }) := by
      simp only [handle_close]
      rw [hcond]
      rfl
    rw [hred]
    exact ⟨rfl, lookup_filter_ne st.open_file_handles h,
      lookup_filter_ne st.open_dir_handles h⟩

/-- C8 witness: misses on the empty state reply BAD_MESSAGE; closing the
open file handle 7 of `stA` replies OK and removes it, after which lookups
miss. -/
theorem claim8_bad_handle_replies_witness :
    handle_read oracleA stEmpty 3 0 10 = bad_handle_reply ("read".toList) ∧
    handle_readdir stEmpty 3 = (bad_handle_reply ("readdir".toList), stEmpty) ∧
    handle_close stEmpty 3 = (bad_handle_reply ("close".toList), stEmpty) ∧
    (handle_close stA 7).1 = ok_reply ∧
    (handle_close stA 7).2.open_file_handles.lookup 7 = none := by
  have h1 := claim8_bad_handle_replies cfgA oracleA stEmpty 3 0 10 msgMk
  have h2 := claim8_bad_handle_replies cfgA oracleA stA 7 0 10 msgMk
  refine ⟨(h1.1 rfl).1, h1.2.1 rfl, h1.2.2.1 rfl rfl, ?_, ?_⟩
  · exact (h2.2.2.2 (Or.inl (by decide))).1
  · exact (h2.2.2.2 (Or.inl (by decide))).2.1

theorem realpath_trace_checked (cfg : SftpConfig) (o : FsOracle) (msg : SftpMessage) :
    ((handle_realpath cfg o msg).2).all (syscall_checked cfg.source_path) = true := by
  unfold handle_realpath
  split <;> rfl

theorem opendir_trace_checked (cfg : SftpConfig) (o : FsOracle) (msg : SftpMessage) :
    ((handle_opendir cfg o msg).2.1).all (syscall_checked cfg.source_path) = true := by
  simp only [handle_opendir]
  repeat' split
  all_goals simp_all [syscall_checked, syscall_checked_paths, syscall_all_paths]

theorem mkdir_trace_checked (cfg : SftpConfig) (o : FsOracle) (msg : SftpMessage) :
    ((handle_mkdir cfg o msg).2).all (syscall_checked cfg.source_path) = true := by
  simp only [handle_mkdir]
  repeat' split
  all_goals simp_all [syscall_checked, syscall_checked_paths, syscall_all_paths]

theorem rmdir_trace_checked (cfg : SftpConfig) (o : FsOracle) (msg : SftpMessage) :
    ((handle_rmdir cfg o msg).2).all (syscall_checked cfg.source_path) = true := by
  simp only [handle_rmdir]
  repeat' split
  all_goals simp_all [syscall_checked, syscall_checked_paths, syscall_all_paths]

theorem stat_trace_checked (cfg : SftpConfig) (o : FsOracle) (msg : SftpMessage)
    (follow : Bool) :
    ((handle_stat cfg o msg follow).2).all (syscall_checked cfg.source_path) = true := by
  simp only [handle_stat]
  repeat' split
  all_goals simp_all [syscall_checked, syscall_checked_paths, syscall_all_paths]

theorem open_trace_checked (cfg : SftpConfig) (o : FsOracle) (msg : SftpMessage) :
    ((handle_open cfg o msg).2).all (syscall_checked cfg.source_path) = true := by
  simp only [handle_open]
  repeat' split
  all_goals simp_all [syscall_checked, syscall_checked_paths, syscall_all_paths]

theorem remove_trace_checked (cfg : SftpConfig) (o : FsOracle) (msg : SftpMessage) :
    ((handle_remove cfg o msg).2).all (syscall_checked cfg.source_path) = true := by
  simp only [handle_remove]
  repeat' split
  all_goals simp_all [syscall_checked, syscall_checked_paths, syscall_all_paths]

theorem rename_trace_checked (cfg : SftpConfig) (o : FsOracle) (msg : SftpMessage) :
    ((handle_rename cfg o msg).2).all (syscall_checked cfg.source_path) = true := by
  simp only [handle_rename]
  repeat' split
  all_goals simp_all [syscall_checked, syscall_checked_paths, syscall_all_paths]

theorem readlink_trace_checked (cfg : SftpConfig) (o : FsOracle) (msg : SftpMessage) :
    ((handle_readlink cfg o msg).2).all (syscall_checked cfg.source_path) = true := by
  simp only [handle_readlink]
  repeat' split
  all_goals simp_all [syscall_checked, syscall_checked_paths, syscall_all_paths]

theorem symlink_trace_checked (cfg : SftpConfig) (o : FsOracle) (msg : SftpMessage) :
    ((handle_symlink cfg o msg).2).all (syscall_checked cfg.source_path) = true := by
  simp only [handle_symlink]
  repeat' split
  all_goals simp_all [syscall_checked, syscall_checked_paths, syscall_all_paths]

theorem setstat_apply_trace_checked (cfg : SftpConfig) (o : FsOracle)
    (fname : List Char) (a : SftpAttrs) (tr0 : List Syscall)
    (h0 : tr0.all (syscall_checked cfg.source_path) = true)
    (hv : validate_path cfg.source_path fname = true) :
    ((setstat_apply cfg o fname a tr0).2).all (syscall_checked cfg.source_path) = true := by
  simp only [setstat_apply]
  repeat' split
  all_goals
    (simp_all [syscall_checked, syscall_checked_paths, syscall_all_paths,
       List.all_append] <;> assumption)

theorem setstat_trace_checked (cfg : SftpConfig) (o : FsOracle) (st : ServerState)
    (h : Nat) (msg : SftpMessage) :
    ((handle_setstat cfg o st false h msg).2).all (syscall_checked cfg.source_path) = true := by
  by_cases hv : validate_path cfg.source_path msg.filename = true
  · by_cases hex : (!o.isSymLink msg.filename && !o.fileExists msg.filename) = true
    · simp [handle_setstat, hv, hex, syscall_checked, syscall_checked_paths,
        syscall_all_paths]
    · have hex2 : (!o.isSymLink msg.filename && !o.fileExists msg.filename) = false := by
        simpa using hex
      simp only [handle_setstat, hv, if_true, hex2, Bool.false_eq_true, if_false]
      exact setstat_apply_trace_checked cfg o msg.filename msg.attr _
        (by simp [syscall_checked, syscall_checked_paths, syscall_all_paths, hv]) hv
  · have hv2 : validate_path cfg.source_path msg.filename = false := by simpa using hv
    simp [handle_setstat, hv2]

theorem extended_trace_checked (cfg : SftpConfig) (o : FsOracle) (msg : SftpMessage) :
    ((handle_extended cfg o msg).2).all (syscall_checked cfg.source_path) = true := by
  cases hsub : msg.submessage with
  | none => simp [handle_extended, hsub]
  | some m =>
    simp only [handle_extended, hsub]
    by_cases h1 : m = "hardlink@openssh.com".toList
    · rw [if_pos h1]
      repeat' split
      all_goals simp_all [syscall_checked, syscall_checked_paths, syscall_all_paths]
    · rw [if_neg h1]
      by_cases h2 : m = "posix-rename@openssh.com".toList
      · rw [if_pos h2]
        exact rename_trace_checked cfg o msg
      · rw [if_neg h2]
        rfl

/-- C2 fails as stated: in SYMLINK, `old_name` is passed as a path argument
to the platform symlink call (and to a directory-check stat) without ever
passing the source-path prefix check — here `/etc/passwd` fails the check
against source `/src` yet reaches the syscall; likewise MKDIR stats the
parent directory `/` of `/src/d`, a path that fails the check. -/
theorem claim2_unvalidated_link_source_cex :
    Syscall.sysSymlink ("/etc/passwd".toList) ("/src/link".toList) false ∈
      (handle_symlink cfgA oracleA msgSym).2 ∧
    ("/etc/passwd".toList) ∈ syscall_all_paths
      (Syscall.sysSymlink ("/etc/passwd".toList) ("/src/link".toList) false) ∧
    validate_path cfgA.source_path ("/etc/passwd".toList) = false ∧
    Syscall.statLinkSource ("/etc/passwd".toList) ∈
      (handle_symlink cfgA oracleA msgSym).2 ∧
    Syscall.statParent ("/".toList) ∈ (handle_mkdir cfgA oracleA msgMk).2 ∧
    validate_path cfgA.source_path ("/".toList) = false := by
  decide

/-- C2 (amended): in every handler, every request-supplied path argument
passed to a filesystem or platform syscall has passed the source-path prefix
check — with these exceptions, which are used without an in-request check:
the `old_name` of SYMLINK and of hardlink@openssh.com (link text/source,
passed to the platform symlink/link and, for SYMLINK, to a directory-check
stat); the parent directory statted in MKDIR/OPEN for the ownership
fallback; the stored target of a symlink re-statted by STAT; and the FSETSTAT
path, which is taken from the handle (it was validated when the handle was
opened, as the hypothesis records). -/
theorem claim2_syscall_paths_checked_amended
    (cfg : SftpConfig) (o : FsOracle) (msg : SftpMessage) (st : ServerState)
    (h : Nat) (follow : Bool) (fname : List Char)
    (hh : st.open_file_handles.lookup h = some fname)
    (hvf : validate_path cfg.source_path fname = true) :
    ((handle_realpath cfg o msg).2).all (syscall_checked cfg.source_path) = true ∧
    ((handle_opendir cfg o msg).2.1).all (syscall_checked cfg.source_path) = true ∧
    ((handle_mkdir cfg o msg).2).all (syscall_checked cfg.source_path) = true ∧
    ((handle_rmdir cfg o msg).2).all (syscall_checked cfg.source_path) = true ∧
    ((handle_stat cfg o msg follow).2).all (syscall_checked cfg.source_path) = true ∧
    ((handle_open cfg o msg).2).all (syscall_checked cfg.source_path) = true ∧
    ((handle_remove cfg o msg).2).all (syscall_checked cfg.source_path) = true ∧
    ((handle_rename cfg o msg).2).all (syscall_checked cfg.source_path) = true ∧
    ((handle_readlink cfg o msg).2).all (syscall_checked cfg.source_path) = true ∧
    ((handle_symlink cfg o msg).2).all (syscall_checked cfg.source_path) = true ∧
    ((handle_extended cfg o msg).2).all (syscall_checked cfg.source_path) = true ∧
    ((handle_setstat cfg o st false h msg).2).all (syscall_checked cfg.source_path) = true ∧
    ((handle_setstat cfg o st true h msg).2).all (syscall_checked cfg.source_path) = true := by
  refine ⟨realpath_trace_checked cfg o msg, opendir_trace_checked cfg o msg,
    mkdir_trace_checked cfg o msg, rmdir_trace_checked cfg o msg,
    stat_trace_checked cfg o msg follow, open_trace_checked cfg o msg,
    remove_trace_checked cfg o msg, rename_trace_checked cfg o msg,
    readlink_trace_checked cfg o msg, symlink_trace_checked cfg o msg,
    extended_trace_checked cfg o msg, setstat_trace_checked cfg o st h msg, ?_⟩
  simp only [handle_setstat, hh, if_true]
  exact setstat_apply_trace_checked cfg o fname msg.attr [] rfl hvf

/-- C2 witness: the amended theorem at source `/src`, message `/src/d`,
and the FSETSTAT handle 7 of `stA` which stores the validated path
`/src/f`. -/
theorem claim2_syscall_paths_checked_amended_witness :
    ((handle_mkdir cfgA oracleA msgMk).2).all (syscall_checked cfgA.source_path) = true ∧
    ((handle_setstat cfgA oracleA stA true 7 msgMk).2).all (syscall_checked cfgA.source_path) = true := by
  have h := claim2_syscall_paths_checked_amended cfgA oracleA msgMk stA 7 true
    ("/src/f".toList) (by decide) (by decide)
  obtain ⟨_, _, a3, _, _, _, _, _, _, _, _, _, a13⟩ := h
  exact ⟨a3, a13⟩
